import Mathlib

/-!
Shallow embedding of the ShivyC compiler front end: the diagnostic model
(errors.py), the lexer (lexer.py) and the statement parser dispatch
(parser/statement.py), with the token-kind registry and token rendering
modelled from the specification (their modules are not among the given
source files).

Python strings are embedded as `List Char` for line/chunk manipulation and
as `String` for rendered diagnostic text.  Python list indexing, which
accepts negative indices and raises IndexError out of range, is embedded as
`pyGet` returning `Option`.  A constructor that can raise is embedded as a
function into a sum of the normal result and the raised exception.
-/

namespace ShivyC

/-- A token kind of the registry.  Modelled from the spec: the token-kind
registry module is not among the given source files.  Each concrete kind
carries a canonical text representation (`text_repr`); `tag` stands for the
identity a distinct registry entry has in the original program. -/
structure TokenKind where
  tag : String
  text_repr : List Char
deriving DecidableEq, Repr

/-- A token.  Modelled from the spec: the token module is not among the
given source files.  `content` is populated only for identifier and number
tokens; `file_name` and `line_num` are stamped by the caller of the
per-line tokenizer, so they start out absent. -/
structure Token where
  kind : TokenKind
  content : Option (List Char)
  file_name : Option String
  line_num : Option Nat
deriving DecidableEq, Repr

/-- Textual rendering of a token, used inside quoted diagnostic text.
Modelled from the spec: the stored content for identifier/number tokens,
the canonical spelling for fixed-spelling kinds. -/
def Token.str (t : Token) : String :=
  match t.content with
  | some c => String.mk c
  | none => String.mk t.kind.text_repr

/-- CompilerError (errors.py lines 8-29): a description plus optional
file name and line number. -/
structure CompilerError where
  descrip : String
  file_name : Option String
  line_num : Option Nat
deriving DecidableEq, Repr

/-- Python truthiness of the optional file-name field: None and the empty
string are falsy. -/
def pyTruthyStr (o : Option String) : Bool :=
  match o with
  | some s => !(s = "")
  | none => false

/-- Python truthiness of the optional line-number field: None and 0 are
falsy. -/
def pyTruthyNat (o : Option Nat) : Bool :=
  match o with
  | some n => !(n = 0)
  | none => false

/-- CompilerError.__str__ (errors.py lines 31-43): three forms depending
on the truthiness of the file-name and line-number fields. -/
def CompilerError.str (e : CompilerError) : String :=
  if pyTruthyStr e.file_name && pyTruthyNat e.line_num then
    (Option.getD e.file_name "") ++ ":" ++ toString (Option.getD e.line_num 0)
      ++ ": error: " ++ e.descrip
  else if pyTruthyStr e.file_name then
    (Option.getD e.file_name "") ++ ": error: " ++ e.descrip
  else
    "shivyc: error: " ++ e.descrip

/-- token_error (errors.py lines 47-56): builds a CompilerError from a
message template with one placeholder and a token, substituting the token's
rendering and inheriting the token's file and line.  The template is
embedded as the text before and after the placeholder. -/
def token_error (descrip_before descrip_after : String) (token : Token) :
    CompilerError :=
  ⟨descrip_before ++ token.str ++ descrip_after, token.file_name,
    token.line_num⟩

/-- ParserError (errors.py lines 59-94): a CompilerError that also carries
`amount_parsed`, the raw index passed by the caller. -/
structure ParserError where
  amount_parsed : Int
  err : CompilerError
deriving DecidableEq, Repr

/-- ParserError.AT (errors.py line 77). -/
def ParserError.AT : Nat := 1

/-- ParserError.GOT (errors.py line 78). -/
def ParserError.GOT : Nat := 2

/-- ParserError.AFTER (errors.py line 79). -/
def ParserError.AFTER : Nat := 3

/-- Outcome of running ParserError.__init__: the constructed object, or
the exception the constructor itself raises (IndexError from list
indexing, ValueError from an unknown message type). -/
inductive InitResult where
  | ok : ParserError → InitResult
  | indexError : InitResult
  | valueError : InitResult
deriving DecidableEq, Repr

/-- Python list indexing `xs[i]`: negative indices count from the end,
out-of-range indexing raises IndexError (here: `none`). -/
def pyGet (xs : List Token) (i : Int) : Option Token :=
  if 0 ≤ i then xs.get? i.toNat
  else if 0 ≤ i + (xs.length : Int) then xs.get? (i + (xs.length : Int)).toNat
  else none

/-- The index/style clamping of ParserError.__init__ (errors.py lines
99-107): an index at or past the end forces the AFTER form at the sequence
length; an index at or below zero is clamped to zero and AFTER is turned
into GOT. -/
def ParserError.clamp (index : Int) (tokens : List Token)
    (message_type : Nat) : Int × Nat :=
  if (tokens.length : Int) ≤ index then
    ((tokens.length : Int), ParserError.AFTER)
  else if index ≤ 0 then
    (0, if message_type = ParserError.AFTER then ParserError.GOT
        else message_type)
  else (index, message_type)

/-- The AT-form base error (errors.py lines 109-111). -/
def ParserError.render_at (message : String) (tok : Token) : CompilerError :=
  ⟨message ++ " at '" ++ tok.str ++ "'", tok.file_name, tok.line_num⟩

/-- The GOT-form base error (errors.py lines 112-114). -/
def ParserError.render_got (message : String) (tok : Token) : CompilerError :=
  ⟨message ++ ", got '" ++ tok.str ++ "'", tok.file_name, tok.line_num⟩

/-- The AFTER-form base error (errors.py lines 115-118). -/
def ParserError.render_after (message : String) (tok : Token) :
    CompilerError :=
  ⟨message ++ " after '" ++ tok.str ++ "'", tok.file_name, tok.line_num⟩

/-- The dispatch on the (clamped) message type at the end of
ParserError.__init__ (errors.py lines 109-120).  `amount_parsed` is the raw
index stored at line 94 before any clamping.  Indexing past the list (which
happens exactly when `tokens` is empty, because of the missing return after
line 97) raises IndexError; an unknown message type raises ValueError. -/
def ParserError.dispatch (message : String) (amount_parsed : Int)
    (tokens : List Token) (index : Int) (message_type : Nat) : InitResult :=
  if message_type = ParserError.AT then
    match pyGet tokens index with
    | some tok => .ok ⟨amount_parsed, ParserError.render_at message tok⟩
    | none => .indexError
  else if message_type = ParserError.GOT then
    match pyGet tokens index with
    | some tok => .ok ⟨amount_parsed, ParserError.render_got message tok⟩
    | none => .indexError
  else if message_type = ParserError.AFTER then
    match pyGet tokens (index - 1) with
    | some tok => .ok ⟨amount_parsed, ParserError.render_after message tok⟩
    | none => .indexError
  else .valueError

/-- ParserError.__init__ (errors.py lines 81-120).  Note: the source's
empty-sequence branch (lines 96-97) calls the base constructor with the
beginning-of-source message but has no return statement, so control always
falls through to the clamping and dispatch below; the fields that branch
sets are then either overwritten or abandoned when the dispatch raises, so
the branch has no observable effect and is not modelled separately. -/
def ParserError.init (message : String) (index : Int) (tokens : List Token)
    (message_type : Nat) : InitResult :=
  ParserError.dispatch message index tokens
    (ParserError.clamp index tokens message_type).1
    (ParserError.clamp index tokens message_type).2

/-- Stable insertion (descending by spelling length) used to embed
Python's stable `sorted(key=lambda kind: -len(kind.text_repr))`
(lexer.py lines 34-37): the inserted kind goes in front of the first
element whose spelling is not longer. -/
def insertByLenDesc (k : TokenKind) : List TokenKind → List TokenKind
  | [] => [k]
  | x :: xs =>
    if x.text_repr.length ≤ k.text_repr.length then k :: x :: xs
    else x :: insertByLenDesc k xs

/-- Stable sort, descending by spelling length (lexer.py lines 34-37). -/
def sortByLenDesc : List TokenKind → List TokenKind
  | [] => []
  | x :: xs => insertByLenDesc x (sortByLenDesc xs)

/-- Lexer (lexer.py lines 16-37): holds the symbol and keyword kind sets,
each sorted from longest to shortest spelling. -/
structure Lexer where
  symbol_kinds : List TokenKind
  keyword_kinds : List TokenKind
deriving Repr

/-- Lexer.__init__ (lexer.py lines 32-37). -/
def Lexer.init (symbol_kinds keyword_kinds : List TokenKind) : Lexer :=
  ⟨sortByLenDesc symbol_kinds, sortByLenDesc keyword_kinds⟩

/-- Lexer.match_symbol_kind_at (lexer.py lines 124-137): the first (hence,
after sorting, longest) symbol kind whose spelling starts at `start` in
`content`. -/
def Lexer.match_symbol_kind_at (lx : Lexer) (content : List Char)
    (start : Nat) : Option TokenKind :=
  lx.symbol_kinds.find? (fun k => k.text_repr.isPrefixOf (content.drop start))

/-- Lexer.match_keyword_kind (lexer.py lines 171-181): the first keyword
kind whose spelling equals the chunk exactly. -/
def Lexer.match_keyword_kind (lx : Lexer) (token_repr : List Char) :
    Option TokenKind :=
  lx.keyword_kinds.find? (fun k => k.text_repr = token_repr)

/-- Lexer.match_number_string (lexer.py lines 183-190): the chunk itself
when it is non-empty and all decimal digits (Python str.isdigit), else
nothing. -/
def match_number_string (token_repr : List Char) : Option (List Char) :=
  if !(token_repr = []) && token_repr.all (fun c => c.isDigit) then
    some token_repr
  else none

/-- Lexer.match_identifier_name (lexer.py lines 192-202): the chunk itself
when it matches the anchored pattern letter-or-underscore followed by
letters, digits or underscores, else nothing. -/
def match_identifier_name (token_repr : List Char) : Option (List Char) :=
  match token_repr with
  | [] => none
  | c :: cs =>
    if (c.isAlpha || c = Char.ofNat 95)
        && cs.all (fun d => d.isAlphanum || d = Char.ofNat 95) then
      some token_repr
    else none

/-- The registry kinds for identifiers and numbers.  Modelled from the
spec: these two kinds carry dynamic content rather than a fixed
spelling. -/
def token_kinds.identifier : TokenKind := ⟨"identifier", []⟩

/-- The number-literal kind; see `token_kinds.identifier`. -/
def token_kinds.number : TokenKind := ⟨"number", []⟩

/-- Lexer.add_chunk (lexer.py lines 139-166): classify a non-empty chunk
as keyword, then number, then identifier, appending the resulting token;
otherwise raise the unrecognized-token CompilerError, which carries no
file or line.  An empty chunk is a no-op. -/
def Lexer.add_chunk (lx : Lexer) (chunk : List Char) (tokens : List Token) :
    Except CompilerError (List Token) :=
  if chunk = [] then .ok tokens
  else
    match lx.match_keyword_kind chunk with
    | some keyword_kind => .ok (tokens ++ [⟨keyword_kind, none, none, none⟩])
    | none =>
      match match_number_string chunk with
      | some number_string =>
        .ok (tokens ++ [⟨token_kinds.number, some number_string, none, none⟩])
      | none =>
        match match_identifier_name chunk with
        | some identifier_name =>
          .ok (tokens ++
            [⟨token_kinds.identifier, some identifier_name, none, none⟩])
        | none =>
          .error ⟨"unrecognized token at '" ++ String.mk chunk ++ "'",
            none, none⟩

/-- Python slice line[a:b]. -/
def pySlice (line : List Char) (a b : Nat) : List Char :=
  (line.drop a).take (b - a)

/-- The scanning loop of Lexer.tokenize_line (lexer.py lines 99-122),
with an explicit fuel argument standing for the loop's progress: every
iteration advances `chunk_end` by at least one when every symbol spelling
is non-empty, so `line.length + 1` units of fuel make the fuel-exhaustion
branch unreachable for such kind sets (a zero-length symbol spelling would
make the original loop run forever). -/
def Lexer.tokenize_line_aux (lx : Lexer) (line : List Char) :
    Nat → Nat → Nat → List Token → Except CompilerError (List Token)
  | 0, _, _, _ => .error ⟨"lexer loop out of fuel", none, none⟩
  | fuel + 1, chunk_start, chunk_end, tokens =>
    if h : chunk_end < line.length then
      match lx.match_symbol_kind_at line chunk_end with
      | some symbol_kind =>
        match lx.add_chunk (pySlice line chunk_start chunk_end) tokens with
        | .error e => .error e
        | .ok tokens1 =>
          lx.tokenize_line_aux line fuel
            (chunk_end + symbol_kind.text_repr.length)
            (chunk_end + symbol_kind.text_repr.length)
            (tokens1 ++ [⟨symbol_kind, none, none, none⟩])
      | none =>
        if (line.get ⟨chunk_end, h⟩).isWhitespace then
          match lx.add_chunk (pySlice line chunk_start chunk_end) tokens with
          | .error e => .error e
          | .ok tokens1 =>
            lx.tokenize_line_aux line fuel (chunk_end + 1) (chunk_end + 1)
              tokens1
        else
          lx.tokenize_line_aux line fuel chunk_start (chunk_end + 1) tokens
    else
      lx.add_chunk (pySlice line chunk_start chunk_end) tokens

/-- Lexer.tokenize_line (lexer.py lines 78-122). -/
def Lexer.tokenize_line (lx : Lexer) (line : List Char) :
    Except CompilerError (List Token) :=
  lx.tokenize_line_aux line (line.length + 1) 0 0 []

/-- A source line with its file name and line number, the element form of
the input to Lexer.tokenize. -/
structure CodeLine where
  text : List Char
  file_name : String
  line_num : Nat
deriving Repr

/-- The loop of Lexer.tokenize (lexer.py lines 61-76): tokenize each line;
on failure overwrite the raised error's file and line with the current
line's and re-raise; on success stamp every produced token with the
current line's file and line and append. -/
def Lexer.tokenize_aux (lx : Lexer) :
    List CodeLine → List Token → Except CompilerError (List Token)
  | [], all_tokens => .ok all_tokens
  | lwi :: rest, all_tokens =>
    match lx.tokenize_line lwi.text with
    | .error e => .error ⟨e.descrip, some lwi.file_name, some lwi.line_num⟩
    | .ok toks =>
      lx.tokenize_aux rest (all_tokens ++ toks.map (fun t =>
        ⟨t.kind, t.content, some lwi.file_name, some lwi.line_num⟩))

/-- Lexer.tokenize (lexer.py lines 39-76). -/
def Lexer.tokenize (lx : Lexer) (code_lines : List CodeLine) :
    Except CompilerError (List Token) :=
  lx.tokenize_aux code_lines []

/-- Modelled from the spec: the token-kind registry module is not among
the given source files, so the standard C symbol-kind set is assembled
from the spellings the spec and the statement parser name (operators,
punctuation and the shift family used in the longest-match examples). -/
def std_symbol_kinds : List TokenKind :=
  [⟨"plus", ['+']⟩,
   ⟨"plus_equals", ['+', '=']⟩,
   ⟨"equals", ['=']⟩,
   ⟨"open_paren", ['(']⟩,
   ⟨"close_paren", [')']⟩,
   ⟨"open_brack", [Char.ofNat 123]⟩,
   ⟨"close_brack", [Char.ofNat 125]⟩,
   ⟨"semicolon", [';']⟩,
   ⟨"lt", ['<']⟩,
   ⟨"lshift", ['<', '<']⟩,
   ⟨"lshift_equals", ['<', '<', '=']⟩]

/-- Modelled from the spec: the standard keyword-kind set, from the
reserved words the spec and the statement parser name. -/
def std_keyword_kinds : List TokenKind :=
  [⟨"int_kw", ['i', 'n', 't']⟩,
   ⟨"return_kw", ['r', 'e', 't', 'u', 'r', 'n']⟩,
   ⟨"if_kw", ['i', 'f']⟩,
   ⟨"else_kw", ['e', 'l', 's', 'e']⟩,
   ⟨"while_kw", ['w', 'h', 'i', 'l', 'e']⟩]

/-- The lexer over the standard kind sets. -/
def stdLexer : Lexer := Lexer.init std_symbol_kinds std_keyword_kinds

/-- Modelled from the spec: parser.utils.log_error is not among the given
source files.  Per the spec it records a ParserError from a failed
alternative, retaining whichever logged error has the greatest
amount_parsed. -/
def log_error (e : ParserError) (best : Option ParserError) :
    Option ParserError :=
  match best with
  | none => some e
  | some b => if b.amount_parsed < e.amount_parsed then some e else some b

/-- Outcome of one parsing alternative: a parsed node with the next index,
or a raised ParserError.  The node type is abstract here because the AST
node module is not among the given source files. -/
abbrev ParseResult (α : Type) : Type := Except ParserError (α × Nat)

/-- parse_statement (parser/statement.py lines 12-40), with the five
alternative parsers passed as arguments because their bodies depend on
modules not among the given source files, and the best-error log passed
explicitly.  Each of the first four alternatives is tried at the original
index; its failure is logged and the next alternative is tried.  The final
expression-statement alternative runs unguarded: its outcome, error
included, is returned as the outcome of parse_statement. -/
def parse_statement {α : Type}
    (pCompound pReturn pIf pWhile pExpr : Nat → ParseResult α)
    (index : Nat) (best : Option ParserError) :
    Option ParserError × ParseResult α :=
  match pCompound index with
  | .ok r => (best, .ok r)
  | .error e1 =>
    let best1 := log_error e1 best
    match pReturn index with
    | .ok r => (best1, .ok r)
    | .error e2 =>
      let best2 := log_error e2 best1
      match pIf index with
      | .ok r => (best2, .ok r)
      | .error e3 =>
        let best3 := log_error e3 best2
        match pWhile index with
        | .ok r => (best3, .ok r)
        | .error e4 =>
          let best4 := log_error e4 best3
          (best4, pExpr index)

end ShivyC

deriving instance DecidableEq for Except

namespace ShivyC

/-! Helper lemmas about the sorted kind lists and Python-style indexing. -/

theorem mem_insertByLenDesc {a k : TokenKind} {l : List TokenKind} :
    a ∈ insertByLenDesc k l ↔ a = k ∨ a ∈ l := by
  induction l with
  | nil => simp [insertByLenDesc]
  | cons x xs ih =>
    simp only [insertByLenDesc]
    split
    · simp [List.mem_cons]
    · simp only [List.mem_cons, ih]
      tauto

theorem pairwise_insertByLenDesc {k : TokenKind} {l : List TokenKind}
    (h : l.Pairwise (fun a b => b.text_repr.length ≤ a.text_repr.length)) :
    (insertByLenDesc k l).Pairwise
      (fun a b => b.text_repr.length ≤ a.text_repr.length) := by
  induction l with
  | nil => simp [insertByLenDesc]
  | cons x xs ih =>
    rw [List.pairwise_cons] at h
    obtain ⟨hx, hxs⟩ := h
    simp only [insertByLenDesc]
    split
    · rename_i hle
      rw [List.pairwise_cons]
      refine ⟨?_, ?_⟩
      · intro y hy
        rcases List.mem_cons.mp hy with rfl | hy2
        · exact hle
        · exact le_trans (hx y hy2) hle
      · rw [List.pairwise_cons]
        exact ⟨hx, hxs⟩
    · rename_i hgt
      rw [List.pairwise_cons]
      refine ⟨?_, ih hxs⟩
      intro y hy
      rcases mem_insertByLenDesc.mp hy with rfl | hy2
      · omega
      · exact hx y hy2

theorem mem_sortByLenDesc {a : TokenKind} {l : List TokenKind} :
    a ∈ sortByLenDesc l ↔ a ∈ l := by
  induction l with
  | nil => simp [sortByLenDesc]
  | cons x xs ih => simp [sortByLenDesc, mem_insertByLenDesc, ih]

theorem pairwise_sortByLenDesc (l : List TokenKind) :
    (sortByLenDesc l).Pairwise
      (fun a b => b.text_repr.length ≤ a.text_repr.length) := by
  induction l with
  | nil => simp [sortByLenDesc]
  | cons x xs ih => exact pairwise_insertByLenDesc ih

theorem find?_longest {p : TokenKind → Bool} {l : List TokenKind}
    {k : TokenKind}
    (hp : l.Pairwise (fun a b => b.text_repr.length ≤ a.text_repr.length))
    (hf : l.find? p = some k) :
    ∀ k2 ∈ l, p k2 = true → k2.text_repr.length ≤ k.text_repr.length := by
  induction l with
  | nil => simp at hf
  | cons x xs ih =>
    rw [List.pairwise_cons] at hp
    obtain ⟨hx, hxs⟩ := hp
    by_cases hpx : p x = true
    · rw [List.find?_cons_of_pos _ hpx] at hf
      injection hf with hk
      subst hk
      intro k2 hk2 hpk2
      rcases List.mem_cons.mp hk2 with rfl | h2
      · exact le_refl _
      · exact hx k2 h2
    · rw [List.find?_cons_of_neg _ hpx] at hf
      intro k2 hk2 hpk2
      rcases List.mem_cons.mp hk2 with rfl | h2
      · exact absurd hpk2 hpx
      · exact ih hxs hf k2 h2 hpk2

theorem pyGet_mem {xs : List Token} {i : Int} {t : Token}
    (h : pyGet xs i = some t) : t ∈ xs := by
  unfold pyGet at h
  split at h
  · exact List.get?_mem h
  · split at h
    · exact List.get?_mem h
    · exact absurd h (by simp)

theorem dispatch_ok_shape {message : String} {ap : Int} {toks : List Token}
    {index : Int} {mt : Nat} {pe : ParserError}
    (h : ParserError.dispatch message ap toks index mt = .ok pe) :
    pe.amount_parsed = ap ∧
    ∃ t ∈ toks, pe.err.file_name = t.file_name ∧
      pe.err.line_num = t.line_num := by
  unfold ParserError.dispatch at h
  split at h
  · cases hg : pyGet toks index with
    | none => rw [hg] at h; exact absurd h (by simp)
    | some tok =>
      rw [hg] at h
      injection h with h2
      subst h2
      exact ⟨rfl, tok, pyGet_mem hg, rfl, rfl⟩
  · split at h
    · cases hg : pyGet toks index with
      | none => rw [hg] at h; exact absurd h (by simp)
      | some tok =>
        rw [hg] at h
        injection h with h2
        subst h2
        exact ⟨rfl, tok, pyGet_mem hg, rfl, rfl⟩
    · split at h
      · cases hg : pyGet toks (index - 1) with
        | none => rw [hg] at h; exact absurd h (by simp)
        | some tok =>
          rw [hg] at h
          injection h with h2
          subst h2
          exact ⟨rfl, tok, pyGet_mem hg, rfl, rfl⟩
      · exact absurd h (by simp)

theorem tokenize_aux_error {lx : Lexer} {lines : List CodeLine}
    {acc : List Token} {e : CompilerError}
    (h : lx.tokenize_aux lines acc = .error e) :
    e.file_name.isSome = true ∧ e.line_num.isSome = true := by
  induction lines generalizing acc with
  | nil => simp [Lexer.tokenize_aux] at h
  | cons lwi rest ih =>
    simp only [Lexer.tokenize_aux] at h
    cases hline : lx.tokenize_line lwi.text with
    | error e0 =>
      rw [hline] at h
      injection h with h2
      subst h2
      exact ⟨rfl, rfl⟩
    | ok toks =>
      rw [hline] at h
      exact ih h

theorem tokenize_aux_ok {lx : Lexer} {lines : List CodeLine}
    {acc toks : List Token}
    (hacc : ∀ t ∈ acc, t.file_name.isSome = true ∧ t.line_num.isSome = true)
    (h : lx.tokenize_aux lines acc = .ok toks) :
    ∀ t ∈ toks, t.file_name.isSome = true ∧ t.line_num.isSome = true := by
  induction lines generalizing acc with
  | nil =>
    simp only [Lexer.tokenize_aux] at h
    injection h with h2
    subst h2
    exact hacc
  | cons lwi rest ih =>
    simp only [Lexer.tokenize_aux] at h
    cases hline : lx.tokenize_line lwi.text with
    | error e0 => rw [hline] at h; exact absurd h (by simp)
    | ok ts =>
      rw [hline] at h
      refine ih ?_ h
      intro t ht
      rcases List.mem_append.mp ht with h1 | h2
      · exact hacc t h1
      · obtain ⟨t0, _, rfl⟩ := List.mem_map.mp h2
        exact ⟨rfl, rfl⟩

/-- Claim C1: constructing a ParserError with an empty token sequence is
claimed to succeed with description "(message) at beginning of source" for
every requested style.  The code instead falls through the empty-sequence
branch (errors.py line 97 has no return) and raises IndexError from
indexing the empty list, for every valid style and at positive, zero and
negative indices alike. -/
theorem c1_empty_tokens_construction_raises :
    ParserError.init "err" 0 [] ParserError.AT = InitResult.indexError ∧
    ParserError.init "err" 0 [] ParserError.GOT = InitResult.indexError ∧
    ParserError.init "err" 0 [] ParserError.AFTER = InitResult.indexError ∧
    ParserError.init "err" 2 [] ParserError.AT = InitResult.indexError ∧
    ParserError.init "err" (-1) [] ParserError.GOT = InitResult.indexError ∧
    ParserError.init "err" (-1) [] ParserError.AFTER =
      InitResult.indexError := by
  decide

/-- Claim C3: CompilerError rendering takes exactly one of three forms
depending on which context fields are present (present in the sense the
code tests them: a file name that is set and non-empty, a line number that
is set and non-zero), and the two concrete examples render exactly as
claimed. -/
theorem c3_compiler_error_rendering :
    (∀ (d f : String) (l : Nat), ¬ f = "" → ¬ l = 0 →
      CompilerError.str ⟨d, some f, some l⟩ =
        f ++ ":" ++ toString l ++ ": error: " ++ d) ∧
    (∀ d f : String, ¬ f = "" →
      CompilerError.str ⟨d, some f, none⟩ = f ++ ": error: " ++ d) ∧
    (∀ d : String, CompilerError.str ⟨d, none, none⟩ =
      "shivyc: error: " ++ d) ∧
    CompilerError.str ⟨"bad", some "main.c", some 5⟩ =
      "main.c:5: error: bad" ∧
    CompilerError.str ⟨"bad", none, none⟩ = "shivyc: error: bad" := by
  refine ⟨?_, ?_, ?_, by decide, by decide⟩
  · intro d f l hf hl
    simp [CompilerError.str, pyTruthyStr, pyTruthyNat, hf, hl]
  · intro d f hf
    simp [CompilerError.str, pyTruthyStr, pyTruthyNat, hf]
  · intro d
    simp [CompilerError.str, pyTruthyStr, pyTruthyNat]

/-- Witness for C3 at the concrete inputs of the claim. -/
theorem c3_compiler_error_rendering_witness :
    CompilerError.str ⟨"bad", some "main.c", some 5⟩ =
      "main.c" ++ ":" ++ toString 5 ++ ": error: " ++ "bad" ∧
    CompilerError.str ⟨"ok", some "f.c", none⟩ = "f.c" ++ ": error: " ++ "ok" :=
  ⟨c3_compiler_error_rendering.1 "bad" "main.c" 5 (by decide) (by decide),
   c3_compiler_error_rendering.2.1 "ok" "f.c" (by decide)⟩

/-- Claim C5: tokenizing the line "a+b" with the standard kind sets yields
exactly three tokens: identifier "a", the plus symbol, identifier "b". -/
theorem c5_tokenize_a_plus_b :
    stdLexer.tokenize_line ['a', '+', 'b'] =
      Except.ok [⟨token_kinds.identifier, some ['a'], none, none⟩,
        ⟨⟨"plus", ['+']⟩, none, none, none⟩,
        ⟨token_kinds.identifier, some ['b'], none, none⟩] := by
  decide

/-- Claim C8: for every fixed-spelling kind of the standard symbol and
keyword sets, tokenizing a line consisting of exactly that kind's canonical
spelling yields exactly one token of that same kind. -/
theorem c8_fixed_spelling_round_trip :
    List.Forall (fun k => stdLexer.tokenize_line k.text_repr =
        Except.ok [⟨k, none, none, none⟩])
      (std_symbol_kinds ++ std_keyword_kinds) := by
  decide

/-- Claim C2: on a non-empty token sequence, an index at or past the end
forces the AFTER form anchored on the last token, and an index at or below
zero is clamped to zero (anchoring AT and GOT on the first token) with a
requested AFTER style forced to GOT. -/
theorem c2_parser_error_clamping (msg : String) (idx : Int)
    (toks : List Token) (mt : Nat) (h : 0 < toks.length) :
    ((toks.length : Int) ≤ idx →
      ParserError.init msg idx toks mt =
        InitResult.ok ⟨idx, ParserError.render_after msg
          (toks.get ⟨toks.length - 1, by omega⟩)⟩) ∧
    (idx ≤ 0 →
      ParserError.init msg idx toks ParserError.AFTER =
        ParserError.init msg idx toks ParserError.GOT ∧
      ParserError.init msg idx toks ParserError.GOT =
        InitResult.ok ⟨idx, ParserError.render_got msg (toks.get ⟨0, h⟩)⟩ ∧
      ParserError.init msg idx toks ParserError.AT =
        InitResult.ok ⟨idx, ParserError.render_at msg (toks.get ⟨0, h⟩)⟩) := by
  have hpy0 : pyGet toks 0 = some (toks.get ⟨0, h⟩) := by
    unfold pyGet
    rw [if_pos (by omega)]
    exact List.get?_eq_get h
  constructor
  · intro hge
    have hclamp1 : (ParserError.clamp idx toks mt).1 = (toks.length : Int) := by
      unfold ParserError.clamp
      rw [if_pos hge]
    have hclamp2 : (ParserError.clamp idx toks mt).2 = ParserError.AFTER := by
      unfold ParserError.clamp
      rw [if_pos hge]
    unfold ParserError.init
    rw [hclamp1, hclamp2]
    unfold ParserError.dispatch
    rw [if_neg (by decide), if_neg (by decide), if_pos rfl]
    have hpy : pyGet toks ((toks.length : Int) - 1) =
        some (toks.get ⟨toks.length - 1, by omega⟩) := by
      unfold pyGet
      rw [if_pos (by omega)]
      have ht : ((toks.length : Int) - 1).toNat = toks.length - 1 := by omega
      rw [ht, List.get?_eq_get (by omega)]
    rw [hpy]
  · intro hle
    have hnge : ¬ ((toks.length : Int) ≤ idx) := by omega
    have hclampA1 : (ParserError.clamp idx toks ParserError.AFTER).1 = 0 := by
      unfold ParserError.clamp
      rw [if_neg hnge, if_pos hle]
    have hclampA2 : (ParserError.clamp idx toks ParserError.AFTER).2 =
        ParserError.GOT := by
      unfold ParserError.clamp
      rw [if_neg hnge, if_pos hle]
      decide
    have hclampG1 : (ParserError.clamp idx toks ParserError.GOT).1 = 0 := by
      unfold ParserError.clamp
      rw [if_neg hnge, if_pos hle]
    have hclampG2 : (ParserError.clamp idx toks ParserError.GOT).2 =
        ParserError.GOT := by
      unfold ParserError.clamp
      rw [if_neg hnge, if_pos hle]
      decide
    have hclampT1 : (ParserError.clamp idx toks ParserError.AT).1 = 0 := by
      unfold ParserError.clamp
      rw [if_neg hnge, if_pos hle]
    have hclampT2 : (ParserError.clamp idx toks ParserError.AT).2 =
        ParserError.AT := by
      unfold ParserError.clamp
      rw [if_neg hnge, if_pos hle]
      decide
    refine ⟨?_, ?_, ?_⟩
    · unfold ParserError.init
      rw [hclampA1, hclampA2, hclampG1, hclampG2]
    · unfold ParserError.init
      rw [hclampG1, hclampG2]
      unfold ParserError.dispatch
      rw [if_neg (by decide), if_pos rfl, hpy0]
    · unfold ParserError.init
      rw [hclampT1, hclampT2]
      unfold ParserError.dispatch
      rw [if_pos rfl, hpy0]

/-- Witness for C2: a concrete overrun index on a two-token sequence is
rendered with the AFTER form on the last token, and a concrete negative
index with requested AFTER style renders like GOT on the first token. -/
theorem c2_parser_error_clamping_witness :
    ParserError.init "expected semicolon" 9
        [⟨token_kinds.number, some ['1'], none, none⟩,
         ⟨token_kinds.number, some ['2'], none, none⟩] ParserError.GOT =
      InitResult.ok ⟨9, ParserError.render_after "expected semicolon"
        ⟨token_kinds.number, some ['2'], none, none⟩⟩ ∧
    ParserError.init "expected semicolon" (-2)
        [⟨token_kinds.number, some ['1'], none, none⟩,
         ⟨token_kinds.number, some ['2'], none, none⟩] ParserError.AFTER =
      ParserError.init "expected semicolon" (-2)
        [⟨token_kinds.number, some ['1'], none, none⟩,
         ⟨token_kinds.number, some ['2'], none, none⟩] ParserError.GOT := by
  refine ⟨?_, ?_⟩
  · have h := (c2_parser_error_clamping "expected semicolon" 9
      [⟨token_kinds.number, some ['1'], none, none⟩,
       ⟨token_kinds.number, some ['2'], none, none⟩]
      ParserError.GOT (by decide)).1 (by decide)
    simpa using h
  · exact ((c2_parser_error_clamping "expected semicolon" (-2)
      [⟨token_kinds.number, some ['1'], none, none⟩,
       ⟨token_kinds.number, some ['2'], none, none⟩]
      ParserError.GOT (by decide)).2 (by decide)).1

/-- Claim C4: the lexer always matches the longest registered symbol
spelling at a position (a returned match is a spelling that occurs there
and is at least as long as every registered spelling occurring there, and
nothing is returned only when no registered spelling occurs there), and
with the kinds for the spellings consisting of one, two and three
characters of "<<=" all registered, tokenizing the line "<<=" yields
exactly one token, of the three-character kind. -/
theorem c4_longest_symbol_match :
    (∀ (ks kws : List TokenKind) (content : List Char) (start : Nat)
        (k : TokenKind),
      (Lexer.init ks kws).match_symbol_kind_at content start = some k →
        k.text_repr.isPrefixOf (content.drop start) = true ∧
        ∀ k2 ∈ ks, k2.text_repr.isPrefixOf (content.drop start) = true →
          k2.text_repr.length ≤ k.text_repr.length) ∧
    (∀ (ks kws : List TokenKind) (content : List Char) (start : Nat),
      (Lexer.init ks kws).match_symbol_kind_at content start = none →
        ∀ k2 ∈ ks, ¬ k2.text_repr.isPrefixOf (content.drop start) = true) ∧
    stdLexer.tokenize_line ['<', '<', '='] =
      Except.ok [⟨⟨"lshift_equals", ['<', '<', '=']⟩, none, none, none⟩] := by
  refine ⟨?_, ?_, by decide⟩
  · intro ks kws content start k hk
    have hk2 : (sortByLenDesc ks).find?
        (fun k0 => k0.text_repr.isPrefixOf (content.drop start)) = some k := hk
    have hpk := List.find?_some hk2
    refine ⟨hpk, ?_⟩
    intro k2 hk3 hpre
    exact find?_longest (pairwise_sortByLenDesc ks) hk2 k2
      (mem_sortByLenDesc.mpr hk3) hpre
  · intro ks kws content start hnone
    have hn2 : (sortByLenDesc ks).find?
        (fun k0 => k0.text_repr.isPrefixOf (content.drop start)) = none := hnone
    intro k2 hk3 hpre
    exact (List.find?_eq_none.mp hn2 k2 (mem_sortByLenDesc.mpr hk3)) hpre

/-- Witness for C4: the longest-match bound applied at the standard symbol
set, the line "<<=" and position 0, for the one-character kind. -/
theorem c4_longest_symbol_match_witness :
    (TokenKind.mk "lt" ['<']).text_repr.length ≤
      (TokenKind.mk "lshift_equals" ['<', '<', '=']).text_repr.length :=
  (c4_longest_symbol_match.1 std_symbol_kinds std_keyword_kinds
      ['<', '<', '='] 0 ⟨"lshift_equals", ['<', '<', '=']⟩ (by decide)).2
    ⟨"lt", ['<']⟩ (by decide) (by decide)

/-- Claim C6: a non-empty chunk that matches no keyword, is not all
digits and is not identifier-shaped makes add_chunk raise the
unrecognized-token CompilerError, whose message is exactly
"unrecognized token at " followed by the quoted chunk and which carries no
file or line; concretely the line "123abc" fails that way, and the caller
(tokenize) attaches the file and line to it. -/
theorem c6_unrecognized_chunk (lx : Lexer) (chunk : List Char)
    (tokens : List Token) (h1 : ¬ (chunk = []))
    (h2 : lx.match_keyword_kind chunk = none)
    (h3 : match_number_string chunk = none)
    (h4 : match_identifier_name chunk = none) :
    lx.add_chunk chunk tokens =
      Except.error ⟨"unrecognized token at '" ++ String.mk chunk ++ "'",
        none, none⟩ ∧
    stdLexer.tokenize_line ['1', '2', '3', 'a', 'b', 'c'] =
      Except.error ⟨"unrecognized token at '123abc'", none, none⟩ ∧
    stdLexer.tokenize [⟨['1', '2', '3', 'a', 'b', 'c'], "main.c", 7⟩] =
      Except.error ⟨"unrecognized token at '123abc'", some "main.c",
        some 7⟩ := by
  refine ⟨?_, by decide, by decide⟩
  unfold Lexer.add_chunk
  rw [if_neg h1, h2, h3, h4]

/-- Witness for C6 at the chunk "123abc" with the standard lexer. -/
theorem c6_unrecognized_chunk_witness :
    stdLexer.add_chunk ['1', '2', '3', 'a', 'b', 'c'] [] =
      Except.error ⟨"unrecognized token at '"
        ++ String.mk ['1', '2', '3', 'a', 'b', 'c'] ++ "'", none, none⟩ :=
  (c6_unrecognized_chunk stdLexer ['1', '2', '3', 'a', 'b', 'c'] []
    (by decide) (by decide) (by decide) (by decide)).1

/-- Claim C7: parse_statement tries the five statement alternatives in the
fixed order compound, return, if, while, expression-statement, all from the
same starting index; a failure of any of the first four is logged and the
next alternative is tried, and the outcome of the final
expression-statement alternative, its ParserError included, is returned to
the caller unlogged and uncaught. -/
theorem c7_parse_statement_dispatch {α : Type}
    (pCompound pReturn pIf pWhile pExpr : Nat → ParseResult α)
    (index : Nat) (best : Option ParserError)
    (e1 e2 e3 e4 : ParserError) (r : α × Nat) :
    (pCompound index = .ok r →
      parse_statement pCompound pReturn pIf pWhile pExpr index best =
        (best, .ok r)) ∧
    (pCompound index = .error e1 → pReturn index = .ok r →
      parse_statement pCompound pReturn pIf pWhile pExpr index best =
        (log_error e1 best, .ok r)) ∧
    (pCompound index = .error e1 → pReturn index = .error e2 →
      pIf index = .ok r →
      parse_statement pCompound pReturn pIf pWhile pExpr index best =
        (log_error e2 (log_error e1 best), .ok r)) ∧
    (pCompound index = .error e1 → pReturn index = .error e2 →
      pIf index = .error e3 → pWhile index = .ok r →
      parse_statement pCompound pReturn pIf pWhile pExpr index best =
        (log_error e3 (log_error e2 (log_error e1 best)), .ok r)) ∧
    (pCompound index = .error e1 → pReturn index = .error e2 →
      pIf index = .error e3 → pWhile index = .error e4 →
      parse_statement pCompound pReturn pIf pWhile pExpr index best =
        (log_error e4 (log_error e3 (log_error e2 (log_error e1 best))),
          pExpr index)) := by
  refine ⟨?_, ?_, ?_, ?_, ?_⟩
  · intro h1
    unfold parse_statement
    rw [h1]
  · intro h1 h2
    unfold parse_statement
    rw [h1, h2]
  · intro h1 h2 h3
    unfold parse_statement
    rw [h1, h2, h3]
  · intro h1 h2 h3 h4
    unfold parse_statement
    rw [h1, h2, h3, h4]
  · intro h1 h2 h3 h4
    unfold parse_statement
    rw [h1, h2, h3, h4]

/-- Witness for C7: a run in which all five alternatives fail, at node
type Nat; the four logged errors accumulate in order and the fifth error
comes back as the result. -/
theorem c7_parse_statement_dispatch_witness :
    parse_statement (α := Nat)
        (fun _ => Except.error ⟨1, ⟨"m1", none, none⟩⟩)
        (fun _ => Except.error ⟨2, ⟨"m2", none, none⟩⟩)
        (fun _ => Except.error ⟨3, ⟨"m3", none, none⟩⟩)
        (fun _ => Except.error ⟨4, ⟨"m4", none, none⟩⟩)
        (fun _ => Except.error ⟨0, ⟨"m5", none, none⟩⟩) 6 none =
      (log_error ⟨4, ⟨"m4", none, none⟩⟩
        (log_error ⟨3, ⟨"m3", none, none⟩⟩
          (log_error ⟨2, ⟨"m2", none, none⟩⟩
            (log_error ⟨1, ⟨"m1", none, none⟩⟩ none))),
        Except.error ⟨0, ⟨"m5", none, none⟩⟩) :=
  (c7_parse_statement_dispatch
      (fun _ => Except.error ⟨1, ⟨"m1", none, none⟩⟩)
      (fun _ => Except.error ⟨2, ⟨"m2", none, none⟩⟩)
      (fun _ => Except.error ⟨3, ⟨"m3", none, none⟩⟩)
      (fun _ => Except.error ⟨4, ⟨"m4", none, none⟩⟩)
      (fun _ => Except.error ⟨0, ⟨"m5", none, none⟩⟩) 6 none
      ⟨1, ⟨"m1", none, none⟩⟩ ⟨2, ⟨"m2", none, none⟩⟩
      ⟨3, ⟨"m3", none, none⟩⟩ ⟨4, ⟨"m4", none, none⟩⟩
      (0, 0)).2.2.2.2 rfl rfl rfl rfl

/-- Claim C9: through every construction path in the observed source, a
CompilerError has either both a file name and a line number or neither: a
tokenize failure carries both, every token tokenize produces carries both,
token_error inherits the token's fields together, and a successfully
constructed ParserError takes both fields from one token of its
sequence. -/
theorem c9_file_line_together :
    (∀ (lx : Lexer) (lines : List CodeLine) (e : CompilerError),
      lx.tokenize lines = .error e →
        e.file_name.isSome = true ∧ e.line_num.isSome = true) ∧
    (∀ (lx : Lexer) (lines : List CodeLine) (toks : List Token),
      lx.tokenize lines = .ok toks →
        ∀ t ∈ toks, t.file_name.isSome = true ∧ t.line_num.isSome = true) ∧
    (∀ (pre post : String) (t : Token),
      t.file_name.isSome = t.line_num.isSome →
        (token_error pre post t).file_name.isSome =
          (token_error pre post t).line_num.isSome) ∧
    (∀ (msg : String) (idx : Int) (toks : List Token) (mt : Nat)
        (pe : ParserError),
      (∀ t ∈ toks, t.file_name.isSome = t.line_num.isSome) →
      ParserError.init msg idx toks mt = InitResult.ok pe →
        pe.err.file_name.isSome = pe.err.line_num.isSome) := by
  refine ⟨?_, ?_, ?_, ?_⟩
  · intro lx lines e h
    exact tokenize_aux_error h
  · intro lx lines toks h
    exact tokenize_aux_ok (by intro t ht; exact absurd ht (by simp)) h
  · intro pre post t h
    exact h
  · intro msg idx toks mt pe htoks hok
    obtain ⟨-, t, hmem, hf, hl⟩ := dispatch_ok_shape hok
    rw [hf, hl]
    exact htoks t hmem

/-- Witness for C9: token_error on a concrete stamped token keeps file and
line together. -/
theorem c9_file_line_together_witness :
    (token_error "expected expression, got '" "'"
        ⟨token_kinds.identifier, some ['x'], some "main.c", some 3⟩).file_name.isSome =
      (token_error "expected expression, got '" "'"
        ⟨token_kinds.identifier, some ['x'], some "main.c", some 3⟩).line_num.isSome :=
  c9_file_line_together.2.2.1 "expected expression, got '" "'"
    ⟨token_kinds.identifier, some ['x'], some "main.c", some 3⟩ rfl

/-- Claim C10: a successfully constructed ParserError records in
amount_parsed the caller's index exactly as passed, before any clamping,
also when that index is negative or exceeds the sequence length. -/
theorem c10_amount_parsed_raw (msg : String) (idx : Int) (toks : List Token)
    (mt : Nat) (pe : ParserError) (_h : ¬ (toks = []))
    (hok : ParserError.init msg idx toks mt = InitResult.ok pe) :
    pe.amount_parsed = idx :=
  (dispatch_ok_shape hok).1

/-- Witness for C10: a negative index is kept verbatim in amount_parsed
while the rendered anchor is clamped. -/
theorem c10_amount_parsed_raw_witness :
    (ParserError.mk (-5) (ParserError.render_at "m"
        ⟨token_kinds.number, some ['1'], none, none⟩)).amount_parsed = -5 :=
  c10_amount_parsed_raw "m" (-5)
    [⟨token_kinds.number, some ['1'], none, none⟩] ParserError.AT
    ⟨-5, ParserError.render_at "m" ⟨token_kinds.number, some ['1'], none, none⟩⟩
    (by decide) (by decide)

end ShivyC
